import Mathlib

/-!
Shallow embedding of the narrative-ai HTTP service
(src/apps/narrative-ai/main.py) and verification of its specification.

The module declares four route handlers and no module-level mutable state;
every handler body is a single return of a constant payload.  Handlers are
embedded as pure Lean functions; since a handler may in principle raise an
HTTPException, each is embedded with an Except result type, carrying the
spec's error taxonomy.  The absence of module state makes the server's
processing of a request trace the pointwise image of the single-request
handler, which is how traces are modelled below.
-/

namespace NarrativeAI

/-- Scalar JSON values appearing in the payloads main.py builds: the handlers
construct only string and integer values and never inspect the arbitrary
user-context mapping, so scalars suffice for the embedding. -/
inductive Json where
  | str : String → Json
  | num : Int → Json
deriving DecidableEq, Repr

/-- Request body of POST /api/generate/scene (pydantic model
GenerateSceneRequest: story_id, user_context, optional previous_choice). -/
structure GenerateSceneRequest where
  story_id : String
  user_context : List (String × Json)
  previous_choice : Option String
deriving DecidableEq, Repr

/-- Request body of POST /api/generate/choices (pydantic model
GenerateChoicesRequest: story_id, current_scene, user_context). -/
structure GenerateChoicesRequest where
  story_id : String
  current_scene : String
  user_context : List (String × Json)
deriving DecidableEq, Repr

/-- Response model NarrativeResponse: generated text plus a metadata mapping. -/
structure NarrativeResponse where
  text : String
  metadata : List (String × Json)
deriving DecidableEq, Repr

/-- One choice object in a generate_choices response: an identifier and a
display text. -/
structure Choice where
  id : String
  text : String
deriving DecidableEq, Repr

/-- Response payload of POST /api/generate/choices: a list of choices plus a
metadata mapping. -/
structure ChoicesResponse where
  choices : List Choice
  metadata : List (String × Json)
deriving DecidableEq, Repr

/-- Response payload of GET /api/story/(story_id): the echoed identifier, the
state mapping, and a message string. -/
structure StoryStateResponse where
  story_id : String
  state : List (String × Json)
  message : String
deriving DecidableEq, Repr

/-- Error taxonomy of the spec's section 7; a handler that raised an
HTTPException would surface one of these kinds. -/
inductive ServiceError where
  | InvalidInput
  | NotFound
  | GenerationFailure
  | StorageFailure
deriving DecidableEq, Repr

/-- Handler of GET /health: returns the constant status object. -/
def health_check : List (String × Json) :=
  [("status", Json.str "healthy"), ("service", Json.str "narrative-ai")]

/-- Handler of POST /api/generate/scene: returns the constant pending text and
a metadata mapping holding the request's story_id, the model identifier and a
token count of zero.  The body raises nothing, so the result is always ok. -/
def generate_scene (request : GenerateSceneRequest) :
    Except ServiceError NarrativeResponse :=
  Except.ok
    { text := "Scene generation endpoint - implementation pending"
      metadata :=
        [("story_id", Json.str request.story_id),
         ("model", Json.str "gpt-4-turbo-preview"),
         ("tokens_used", Json.num 0)] }

/-- Handler of POST /api/generate/choices: returns the constant three-element
choice list and a metadata mapping holding the request's story_id.  The body
raises nothing, so the result is always ok. -/
def generate_choices (request : GenerateChoicesRequest) :
    Except ServiceError ChoicesResponse :=
  Except.ok
    { choices :=
        [{ id := "choice_1", text := "Choice 1 - implementation pending" },
         { id := "choice_2", text := "Choice 2 - implementation pending" },
         { id := "choice_3", text := "Choice 3 - implementation pending" }]
      metadata := [("story_id", Json.str request.story_id)] }

/-- Handler of GET /api/story/(story_id): echoes the identifier with an empty
state mapping and the pending message.  The body raises nothing, so the result
is always ok. -/
def get_story_state (story_id : String) :
    Except ServiceError StoryStateResponse :=
  Except.ok
    { story_id := story_id
      state := []
      message := "Story state endpoint - implementation pending" }

/-- Story-state writes performed by one generate_scene call.  The handler body
in main.py is a single return of a constant payload and touches no store, so
its write set is empty. -/
def scene_writes (_ : GenerateSceneRequest) : List (String × Json) := []

deriving instance DecidableEq for Except

/-- A request arriving at the service: one of the four routes. -/
inductive Request where
  | health : Request
  | scene : GenerateSceneRequest → Request
  | choices : GenerateChoicesRequest → Request
  | story : String → Request
deriving DecidableEq, Repr

/-- A response leaving the service, tagged by route. -/
inductive Response where
  | health : List (String × Json) → Response
  | scene : Except ServiceError NarrativeResponse → Response
  | choices : Except ServiceError ChoicesResponse → Response
  | story : Except ServiceError StoryStateResponse → Response
deriving DecidableEq, Repr

/-- Dispatch of one request to its route handler, as the FastAPI app does. -/
def handle : Request → Response
  | Request.health => Response.health health_check
  | Request.scene r => Response.scene (generate_scene r)
  | Request.choices r => Response.choices (generate_choices r)
  | Request.story sid => Response.story (get_story_state sid)

/-- Processing of a whole request trace.  main.py declares no module-level
mutable state (only the app object and constants), so the responses to a
sequence of requests are the pointwise images of the single-request handler. -/
def run (trace : List Request) : List Response :=
  trace.map handle

/-- Claim C8: every generate_scene call, including one whose story_id is
empty, succeeds and returns the constant pending text with metadata holding
the request's story_id, the model gpt-4-turbo-preview and tokens_used zero. -/
theorem c8_generate_scene_stub (req : GenerateSceneRequest) :
    generate_scene req =
      Except.ok
        { text := "Scene generation endpoint - implementation pending"
          metadata :=
            [("story_id", Json.str req.story_id),
             ("model", Json.str "gpt-4-turbo-preview"),
             ("tokens_used", Json.num 0)] } := rfl

/-- Claim C7: at every position of every request trace, a health request is
answered with exactly the object status healthy, service narrative-ai,
independent of the surrounding system state. -/
theorem c7_health_constant (t1 t2 : List Request) :
    run (t1 ++ Request.health :: t2) =
      run t1 ++
        Response.health
          [("status", Json.str "healthy"),
           ("service", Json.str "narrative-ai")] :: run t2 := by
  simp [run, handle, health_check]

/-- Claim C1, counterexample: a generate_scene call whose story_id is the
empty string does not fail with InvalidInput; it returns a successful
NarrativeResult. -/
theorem c1_empty_id_counterexample :
    generate_scene { story_id := "", user_context := [], previous_choice := none } =
      Except.ok
        { text := "Scene generation endpoint - implementation pending"
          metadata :=
            [("story_id", Json.str ""),
             ("model", Json.str "gpt-4-turbo-preview"),
             ("tokens_used", Json.num 0)] } ∧
    generate_scene { story_id := "", user_context := [], previous_choice := none } ≠
      Except.error ServiceError.InvalidInput := by
  exact ⟨rfl, by simp [generate_scene]⟩

/-- Claim C1, amended: a generate_scene call whose story_id is the empty
string succeeds, returning a NarrativeResult rather than an InvalidInput
failure, and performs no persistence write: its write set is empty and its
presence in a trace leaves every other response unchanged. -/
theorem c1_empty_id_succeeds (req : GenerateSceneRequest)
    (h : req.story_id = "") :
    (∃ r, generate_scene req = Except.ok r) ∧
    generate_scene req ≠ Except.error ServiceError.InvalidInput ∧
    scene_writes req = [] ∧
    ∀ t1 t2 : List Request,
      run (t1 ++ Request.scene req :: t2) =
        run t1 ++ Response.scene (generate_scene req) :: run t2 := by
  refine ⟨⟨_, rfl⟩, by simp [generate_scene], rfl, ?_⟩
  intro t1 t2
  simp [run, handle]

/-- Witness for c1_empty_id_succeeds at the concrete empty-story_id request. -/
theorem c1_empty_id_succeeds_witness :
    (∃ r, generate_scene { story_id := "", user_context := [], previous_choice := none } =
        Except.ok r) ∧
    generate_scene { story_id := "", user_context := [], previous_choice := none } ≠
      Except.error ServiceError.InvalidInput ∧
    scene_writes { story_id := "", user_context := [], previous_choice := none } = [] ∧
    ∀ t1 t2 : List Request,
      run (t1 ++ Request.scene { story_id := "", user_context := [], previous_choice := none } :: t2) =
        run t1 ++
          Response.scene
            (generate_scene { story_id := "", user_context := [], previous_choice := none }) ::
          run t2 :=
  c1_empty_id_succeeds { story_id := "", user_context := [], previous_choice := none } rfl

/-- Claim C2, counterexample: no operation of the service ever creates a
story, so the identifier ghost has never been created; yet get_story_state
on it does not fail with NotFound and instead returns a state. -/
theorem c2_never_created_counterexample :
    get_story_state "ghost" ≠ Except.error ServiceError.NotFound ∧
    get_story_state "ghost" =
      Except.ok
        { story_id := "ghost"
          state := []
          message := "Story state endpoint - implementation pending" } := by
  exact ⟨by simp [get_story_state], rfl⟩

/-- Claim C2, amended: for every story_id, including one that has never been
created, get_story_state is a pure lookup that succeeds, returning the
identifier with an empty state mapping and the pending message; it never
fails with NotFound, and prior history does not change its answer. -/
theorem c2_lookup_always_succeeds (sid : String) :
    get_story_state sid ≠ Except.error ServiceError.NotFound ∧
    get_story_state sid =
      Except.ok
        { story_id := sid
          state := []
          message := "Story state endpoint - implementation pending" } ∧
    ∀ t1 t2 : List Request,
      run (t1 ++ Request.story sid :: t2) =
        run t1 ++ Response.story (get_story_state sid) :: run t2 := by
  refine ⟨by simp [get_story_state], rfl, ?_⟩
  intro t1 t2
  simp [run, handle]

/-- Claim C3: for every non-empty story_id, generate_scene succeeds, and in
every trace an immediately following get_story_state for the same story_id
answers with a state equal to the write set of the generate_scene call; the
stub performs zero mutations, so the lookup reflects every mutation the call
performed. -/
theorem c3_scene_then_lookup (req : GenerateSceneRequest)
    (h : req.story_id ≠ "") :
    (∃ r, generate_scene req = Except.ok r) ∧
    ∀ t : List Request,
      run (t ++ [Request.scene req, Request.story req.story_id]) =
        run t ++
          [Response.scene (generate_scene req),
           Response.story
             (Except.ok
               { story_id := req.story_id
                 state := scene_writes req
                 message := "Story state endpoint - implementation pending" })] := by
  refine ⟨⟨_, rfl⟩, ?_⟩
  intro t
  simp [run, handle, get_story_state, scene_writes]

/-- Witness for c3_scene_then_lookup at a concrete non-empty story_id. -/
theorem c3_scene_then_lookup_witness :
    (∃ r, generate_scene { story_id := "s1", user_context := [], previous_choice := none } =
        Except.ok r) ∧
    ∀ t : List Request,
      run (t ++ [Request.scene { story_id := "s1", user_context := [], previous_choice := none },
                 Request.story "s1"]) =
        run t ++
          [Response.scene
             (generate_scene { story_id := "s1", user_context := [], previous_choice := none }),
           Response.story
             (Except.ok
               { story_id := "s1"
                 state := scene_writes { story_id := "s1", user_context := [], previous_choice := none }
                 message := "Story state endpoint - implementation pending" })] :=
  c3_scene_then_lookup { story_id := "s1", user_context := [], previous_choice := none }
    (by decide)

/-- Claim C4: a successful generate_choices result never carries an empty
choice list; every response the stub returns holds exactly three choices, so
success and an empty list never coincide.  The zero-choice branch is vacuous
in the stub: no collaborator exists and no execution yields zero choices. -/
theorem c4_choices_nonempty (req : GenerateChoicesRequest)
    (resp : ChoicesResponse) (h : generate_choices req = Except.ok resp) :
    resp.choices ≠ [] ∧ resp.choices.length = 3 := by
  simp only [generate_choices, Except.ok.injEq] at h
  subst h
  exact ⟨by simp, rfl⟩

/-- Witness for c4_choices_nonempty at a concrete request. -/
theorem c4_choices_nonempty_witness :
    ({ choices :=
         [{ id := "choice_1", text := "Choice 1 - implementation pending" },
          { id := "choice_2", text := "Choice 2 - implementation pending" },
          { id := "choice_3", text := "Choice 3 - implementation pending" }]
       metadata := [("story_id", Json.str "s")] } : ChoicesResponse).choices ≠ [] ∧
    ({ choices :=
         [{ id := "choice_1", text := "Choice 1 - implementation pending" },
          { id := "choice_2", text := "Choice 2 - implementation pending" },
          { id := "choice_3", text := "Choice 3 - implementation pending" }]
       metadata := [("story_id", Json.str "s")] } : ChoicesResponse).choices.length = 3 :=
  c4_choices_nonempty
    { story_id := "s", current_scene := "intro", user_context := [] } _ rfl

/-- Claim C5: within one successful generate_choices response the choice
identifiers are pairwise distinct. -/
theorem c5_choice_ids_distinct (req : GenerateChoicesRequest)
    (resp : ChoicesResponse) (h : generate_choices req = Except.ok resp) :
    (resp.choices.map Choice.id).Nodup := by
  simp only [generate_choices, Except.ok.injEq] at h
  subst h
  exact (by decide : (["choice_1", "choice_2", "choice_3"] : List String).Nodup)

/-- Witness for c5_choice_ids_distinct at a concrete request. -/
theorem c5_choice_ids_distinct_witness :
    (({ choices :=
          [{ id := "choice_1", text := "Choice 1 - implementation pending" },
           { id := "choice_2", text := "Choice 2 - implementation pending" },
           { id := "choice_3", text := "Choice 3 - implementation pending" }]
        metadata := [("story_id", Json.str "w")] } : ChoicesResponse).choices.map
      Choice.id).Nodup :=
  c5_choice_ids_distinct
    { story_id := "w", current_scene := "scene_1", user_context := [] } _ rfl

/-- Claim C6: every successful generate_scene result has non-empty text, and
its metadata mapping holds the model identifier used, a token-usage count and
the story_id of the request. -/
theorem c6_scene_result_contract (req : GenerateSceneRequest)
    (resp : NarrativeResponse) (h : generate_scene req = Except.ok resp) :
    resp.text ≠ "" ∧
    ("model", Json.str "gpt-4-turbo-preview") ∈ resp.metadata ∧
    ("tokens_used", Json.num 0) ∈ resp.metadata ∧
    ("story_id", Json.str req.story_id) ∈ resp.metadata := by
  simp only [generate_scene, Except.ok.injEq] at h
  subst h
  refine ⟨by simp, by simp, by simp, by simp⟩

/-- Witness for c6_scene_result_contract at a concrete request. -/
theorem c6_scene_result_contract_witness :
    ({ text := "Scene generation endpoint - implementation pending"
       metadata :=
         [("story_id", Json.str "story_7"),
          ("model", Json.str "gpt-4-turbo-preview"),
          ("tokens_used", Json.num 0)] } : NarrativeResponse).text ≠ "" ∧
    ("model", Json.str "gpt-4-turbo-preview") ∈
      ({ text := "Scene generation endpoint - implementation pending"
         metadata :=
           [("story_id", Json.str "story_7"),
            ("model", Json.str "gpt-4-turbo-preview"),
            ("tokens_used", Json.num 0)] } : NarrativeResponse).metadata ∧
    ("tokens_used", Json.num 0) ∈
      ({ text := "Scene generation endpoint - implementation pending"
         metadata :=
           [("story_id", Json.str "story_7"),
            ("model", Json.str "gpt-4-turbo-preview"),
            ("tokens_used", Json.num 0)] } : NarrativeResponse).metadata ∧
    ("story_id", Json.str "story_7") ∈
      ({ text := "Scene generation endpoint - implementation pending"
         metadata :=
           [("story_id", Json.str "story_7"),
            ("model", Json.str "gpt-4-turbo-preview"),
            ("tokens_used", Json.num 0)] } : NarrativeResponse).metadata :=
  c6_scene_result_contract
    { story_id := "story_7", user_context := [], previous_choice := some "choice_2" } _ rfl

/-- Claim C9: for every story_id, get_story_state succeeds, echoes the same
story_id with an empty state mapping, and mutates nothing: inserting the call
anywhere in a trace leaves every other response unchanged, there being no
stored state any handler reads or writes. -/
theorem c9_story_state_pure (sid : String) :
    get_story_state sid =
      Except.ok
        { story_id := sid
          state := []
          message := "Story state endpoint - implementation pending" } ∧
    ∀ t1 t2 : List Request,
      run (t1 ++ Request.story sid :: t2) =
        run t1 ++ Response.story (get_story_state sid) :: run t2 ∧
      run (t1 ++ t2) = run t1 ++ run t2 := by
  refine ⟨rfl, ?_⟩
  intro t1 t2
  constructor
  · simp [run, handle]
  · simp [run]

/-- Claim C10: every handler is a deterministic function of its request
alone: in two runs, positions holding equal requests receive identical
responses, independent of any prior sequence of calls. -/
theorem c10_history_independent (t1 t2 : List Request) (i j : Nat)
    (h : t1[i]? = t2[j]?) :
    (run t1)[i]? = (run t2)[j]? := by
  simp [run, List.getElem?_map, h]

/-- Witness for c10_history_independent: two traces with different histories
share the request at the chosen positions and receive the same response. -/
theorem c10_history_independent_witness :
    (run [Request.health, Request.story "a"])[1]? =
      (run [Request.scene { story_id := "x", user_context := [], previous_choice := none },
            Request.story "a", Request.health])[1]? :=
  c10_history_independent
    [Request.health, Request.story "a"]
    [Request.scene { story_id := "x", user_context := [], previous_choice := none },
     Request.story "a", Request.health] 1 1 rfl

end NarrativeAI
